import Mathlib

/-!
Shallow embedding of the notes CRUD service
(`src/Routes/notes.py`, `src/models/notes_model.py`).

Users are stored records with an `email` and a bearer `token`; notes live
in a document collection keyed by a storage-generated `_id` (an ObjectId,
rendered at the boundary as a 24-character hexadecimal string).  The five
request handlers (`create_note`, `get_all_notes`, `get_my_notes`,
`update_note`, `delete_note`) are modelled as pure functions from the user
store, the note store, and the request parameters to an `Except` of an
HTTP-style error and the note store after the call.  Each `raise` in the
Python source becomes an `.error` result paired with the store as it was
at that point of the handler (no mutation has happened yet there, which is
visible in the source order).
-/

/-- A stored user record: `email` identifies the user, `token` is the
bearer credential matched verbatim. -/
structure UserRecord where
  email : String
  token : String
deriving DecidableEq, Repr

/-- A note document as stored in the collection: the storage `_id`
(ObjectId rendered as its 24-char lowercase hex string) plus the four
fields `create_note` inserts. -/
structure NoteDoc where
  oid : String
  project_name : String
  created_by_user_email : String
  created_date : String
  notes : String
deriving DecidableEq, Repr

/-- A note as rendered at the API boundary: the same fields, with the
storage identifier already rendered as a string (the handlers do
`note["_id"] = str(note["_id"])`). -/
structure NoteOut where
  oid : String
  project_name : String
  created_by_user_email : String
  created_date : String
  notes : String
deriving DecidableEq, Repr

/-- `fastapi.HTTPException`: a status code and a detail message. -/
structure HTTPError where
  status_code : Nat
  detail : String
deriving DecidableEq, Repr

/-- The validated body of `POST /notes/create`: pydantic `NoteModel`
(`src/models/notes_model.py`).  All of `project_name`,
`created_by_user_email`, `created_date` and `notes` are required
(non-`Optional`, no default); only `id` is optional. -/
structure NoteModel where
  id : Option String
  project_name : String
  created_by_user_email : String
  created_date : String
  notes : String
deriving DecidableEq, Repr

/-- A raw JSON body for the create endpoint, before pydantic validation:
every field may be absent. -/
structure RawNotePayload where
  id : Option String
  project_name : Option String
  created_by_user_email : Option String
  created_date : Option String
  notes : Option String
deriving DecidableEq, Repr

/-- Pydantic validation of `NoteModel`: succeeds exactly when all four
required fields are present in the body. -/
def NoteModel.validate (p : RawNotePayload) : Option NoteModel :=
  match p.project_name, p.created_by_user_email, p.created_date, p.notes with
  | some pn, some em, some cd, some ns => some ⟨p.id, pn, em, cd, ns⟩
  | _, _, _, _ => none

/-- The validated body of `PUT /notes/update/{note_id}`: pydantic
`NoteUpdateModel`, both fields `Optional` with default `None`. -/
structure NoteUpdateModel where
  project_name : Option String
  notes : Option String
deriving DecidableEq, Repr

/-- `user_collection.find_one({"token": token})`: first stored user whose
`token` field equals the credential (case-sensitive). -/
def find_user (users : List UserRecord) (token : String) : Option UserRecord :=
  users.find? (fun u => u.token == token)

/-- `notes_collection.find_one({"_id": object_id})`: first note whose
storage id equals the parsed ObjectId. -/
def find_note (db : List NoteDoc) (object_id : String) : Option NoteDoc :=
  db.find? (fun n => n.oid == object_id)

/-- Hexadecimal digit test, as accepted by `bson.ObjectId`. -/
def isHexChar (c : Char) : Bool :=
  c.isDigit || (('a' : Char) ≤ c && c ≤ ('f' : Char)) ||
    (('A' : Char) ≤ c && c ≤ ('F' : Char))

/-- A string is a valid ObjectId literal iff it is exactly 24 hex
characters. -/
def isValidObjectId (s : String) : Bool :=
  s.length == 24 && s.data.all isHexChar

/-- Character-wise lowercasing of a hex literal. -/
def lowerHex (s : String) : String :=
  ⟨s.data.map Char.toLower⟩

/-- `ObjectId(note_id)`: parse the path parameter into the storage-native
identifier.  ObjectId equality is on the underlying bytes, so the parsed
form is the lowercased hex string; an invalid literal raises (here:
`none`). -/
def parseObjectId (s : String) : Option String :=
  if isValidObjectId s then some (lowerHex s) else none

/-- `datetime` components used by `datetime.now()`. -/
structure DateTime where
  year : Nat
  month : Nat
  day : Nat
  hour : Nat
  minute : Nat
  second : Nat
deriving DecidableEq, Repr

/-- Zero-pad a numeral to two digits, as `%m %d %H %M %S` do. -/
def pad2 (n : Nat) : String :=
  if n < 10 then "0" ++ toString n else toString n

/-- Zero-pad a year to four digits, as `%Y` does. -/
def pad4 (n : Nat) : String :=
  if n < 10 then "000" ++ toString n
  else if n < 100 then "00" ++ toString n
  else if n < 1000 then "0" ++ toString n
  else toString n

/-- `datetime.strftime("%Y-%m-%d %H:%M:%S")`. -/
def strftime_ymd_hms (t : DateTime) : String :=
  pad4 t.year ++ "-" ++ pad2 t.month ++ "-" ++ pad2 t.day ++ " " ++
    pad2 t.hour ++ ":" ++ pad2 t.minute ++ ":" ++ pad2 t.second

/-- Boundary rendering of a stored note (`note["_id"] = str(note["_id"])`
then returned as `data`). -/
def noteOut (n : NoteDoc) : NoteOut :=
  ⟨n.oid, n.project_name, n.created_by_user_email, n.created_date, n.notes⟩

/-- Response envelope of create and update: `{success, message, data}`
with a single note as `data`. -/
structure NoteResponse where
  success : Bool
  message : String
  data : NoteOut
deriving DecidableEq, Repr

/-- Response envelope of the two list endpoints:
`{success, message, count, data}`. -/
structure ListResponse where
  success : Bool
  message : String
  count : Nat
  data : List NoteOut
deriving DecidableEq, Repr

/-- The `data` object of a successful delete: `{"_id": note_id,
"deleted": True}`. -/
structure DeleteData where
  oid : String
  deleted : Bool
deriving DecidableEq, Repr

/-- Response envelope of delete. -/
structure DeleteResponse where
  success : Bool
  message : String
  data : DeleteData
deriving DecidableEq, Repr

/-- `POST /notes/create` (`create_note` in `src/Routes/notes.py`).
`now` is the server clock at the call, `freshId` the ObjectId the storage
engine assigns to the inserted document. -/
def create_note (users : List UserRecord) (db : List NoteDoc)
    (token : String) (note_data : NoteModel) (now : DateTime)
    (freshId : String) :
    Except HTTPError NoteResponse × List NoteDoc :=
  match find_user users token with
  | none => (.error ⟨401, "Invalid or expired token"⟩, db)
  | some user =>
    let note_doc : NoteDoc :=
      { oid := freshId
        project_name := note_data.project_name
        created_by_user_email := user.email
        created_date := strftime_ymd_hms now
        notes := note_data.notes }
    (.ok { success := true
           message := "Note created successfully"
           data := noteOut note_doc }, db ++ [note_doc])

/-- `GET /notes/all` (`get_all_notes`). -/
def get_all_notes (users : List UserRecord) (db : List NoteDoc)
    (token : String) :
    Except HTTPError ListResponse × List NoteDoc :=
  match find_user users token with
  | none => (.error ⟨401, "Invalid or expired token"⟩, db)
  | some _ =>
    let all_notes := db.map noteOut
    (.ok { success := true
           message := "All notes retrieved successfully"
           count := all_notes.length
           data := all_notes }, db)

/-- `GET /notes/my-notes` (`get_my_notes`). -/
def get_my_notes (users : List UserRecord) (db : List NoteDoc)
    (token : String) :
    Except HTTPError ListResponse × List NoteDoc :=
  match find_user users token with
  | none => (.error ⟨401, "Invalid or expired token"⟩, db)
  | some user =>
    let user_notes :=
      (db.filter (fun n => n.created_by_user_email == user.email)).map noteOut
    (.ok { success := true
           message := "Your notes retrieved successfully"
           count := user_notes.length
           data := user_notes }, db)

/-- `$set` with the `update_fields` dict built by the handler: overwrites
exactly the keys present (the non-`None` payload fields) and no others. -/
def applySet (upd : NoteUpdateModel) (n : NoteDoc) : NoteDoc :=
  { n with
    project_name := upd.project_name.getD n.project_name
    notes := upd.notes.getD n.notes }

/-- `notes_collection.update_one({"_id": object_id}, {"$set": ...})`:
applies the `$set` to the first document matching the filter, leaving the
rest of the collection untouched. -/
def update_one (db : List NoteDoc) (object_id : String)
    (upd : NoteUpdateModel) : List NoteDoc :=
  match db with
  | [] => []
  | n :: t =>
    if n.oid == object_id then applySet upd n :: t
    else n :: update_one t object_id upd

/-- `PUT /notes/update/{note_id}` (`update_note`). -/
def update_note (users : List UserRecord) (db : List NoteDoc)
    (token : String) (note_id : String) (update_data : NoteUpdateModel) :
    Except HTTPError NoteResponse × List NoteDoc :=
  match find_user users token with
  | none => (.error ⟨401, "Invalid or expired token"⟩, db)
  | some user =>
    match parseObjectId note_id with
    | none => (.error ⟨400, "Invalid note ID format"⟩, db)
    | some object_id =>
      match find_note db object_id with
      | none => (.error ⟨404, "Note not found"⟩, db)
      | some note =>
        if note.created_by_user_email ≠ user.email then
          (.error ⟨403, "You can only update your own notes"⟩, db)
        else if update_data.project_name = none ∧ update_data.notes = none then
          (.error ⟨400, "No fields to update"⟩, db)
        else
          let db2 := update_one db object_id update_data
          match find_note db2 object_id with
          | none => (.error ⟨500, "Internal Server Error"⟩, db2)
          | some updated_note =>
            (.ok { success := true
                   message := "Note updated successfully"
                   data := noteOut updated_note }, db2)

/-- `DELETE /notes/delete/{note_id}` (`delete_note`).  `delete_one`
removes the first matching document; the response echoes the original
`note_id` string. -/
def delete_note (users : List UserRecord) (db : List NoteDoc)
    (token : String) (note_id : String) :
    Except HTTPError DeleteResponse × List NoteDoc :=
  match find_user users token with
  | none => (.error ⟨401, "Invalid or expired token"⟩, db)
  | some user =>
    match parseObjectId note_id with
    | none => (.error ⟨400, "Invalid note ID format"⟩, db)
    | some object_id =>
      match find_note db object_id with
      | none => (.error ⟨404, "Note not found"⟩, db)
      | some note =>
        if note.created_by_user_email ≠ user.email then
          (.error ⟨403, "You can only delete your own notes"⟩, db)
        else
          (.ok { success := true
                 message := "Note deleted successfully"
                 data := ⟨note_id, true⟩ },
           db.eraseP (fun n => n.oid == object_id))

/-! ## Helper lemmas -/

/-- `$set` never touches the storage id. -/
theorem applySet_oid (upd : NoteUpdateModel) (n : NoteDoc) :
    (applySet upd n).oid = n.oid := rfl

/-- `$set` never touches `created_by_user_email`. -/
theorem applySet_email (upd : NoteUpdateModel) (n : NoteDoc) :
    (applySet upd n).created_by_user_email = n.created_by_user_email := rfl

/-- `$set` never touches `created_date`. -/
theorem applySet_date (upd : NoteUpdateModel) (n : NoteDoc) :
    (applySet upd n).created_date = n.created_date := rfl

/-- Re-reading by id after `update_one` returns the `$set` image of the
document the id previously found. -/
theorem find_note_update_one (db : List NoteDoc) (object_id : String)
    (upd : NoteUpdateModel) :
    find_note (update_one db object_id upd) object_id =
      (find_note db object_id).map (applySet upd) := by
  induction db with
  | nil => rfl
  | cons n t ih =>
    by_cases h : n.oid == object_id
    · simp [update_one, find_note, h, applySet_oid, List.find?_cons]
    · simp only [update_one, if_neg h]
      simp only [find_note, List.find?_cons, h] at *
      exact ih

/-- Any per-document observation that `$set` preserves is preserved across
the whole collection by `update_one`. -/
theorem update_one_map_frame {β : Type} (f : NoteDoc → β)
    (upd : NoteUpdateModel) (hf : ∀ n, f (applySet upd n) = f n)
    (db : List NoteDoc) (object_id : String) :
    (update_one db object_id upd).map f = db.map f := by
  induction db with
  | nil => rfl
  | cons n t ih =>
    by_cases h : n.oid == object_id
    · simp [update_one, h, hf]
    · simp [update_one, h, ih]

/-! ## Concrete data used by the witnesses -/

/-- Two stored users. -/
def exUsers : List UserRecord :=
  [⟨"alice@x.com", "tokA"⟩, ⟨"bob@x.com", "tokB"⟩]

/-- A storage-generated ObjectId (24 lowercase hex characters). -/
def exOid : String := "aaaaaaaaaaaaaaaaaaaaaaaa"

/-- A stored note owned by alice. -/
def exNote : NoteDoc :=
  ⟨exOid, "Site", "alice@x.com", "2026-02-04 14:30:00", "draft"⟩

/-- A one-note collection. -/
def exDb : List NoteDoc := [exNote]

/-- A fixed server clock value. -/
def exNow : DateTime := ⟨2026, 2, 4, 14, 30, 0⟩

/-! ## Claims -/

/-- C1: for every stored note `n` reachable by a parseable id and every
authenticated user `u` whose email differs from
`n.created_by_user_email`, update fails with 403 "You can only update
your own notes", delete fails with 403 "You can only delete your own
notes", and in both cases the collection is unchanged. -/
theorem owner_only_update_delete (users : List UserRecord)
    (db : List NoteDoc) (token note_id : String) (upd : NoteUpdateModel)
    (u : UserRecord) (object_id : String) (n : NoteDoc)
    (hu : find_user users token = some u)
    (hp : parseObjectId note_id = some object_id)
    (hn : find_note db object_id = some n)
    (hne : n.created_by_user_email ≠ u.email) :
    update_note users db token note_id upd =
      (.error ⟨403, "You can only update your own notes"⟩, db) ∧
    delete_note users db token note_id =
      (.error ⟨403, "You can only delete your own notes"⟩, db) := by
  constructor <;> simp [update_note, delete_note, hu, hp, hn, hne]

/-- Witness for C1: bob may neither update nor delete alice's note. -/
theorem owner_only_update_delete_witness :
    update_note exUsers exDb "tokB" exOid ⟨some "X", none⟩ =
      (.error ⟨403, "You can only update your own notes"⟩, exDb) ∧
    delete_note exUsers exDb "tokB" exOid =
      (.error ⟨403, "You can only delete your own notes"⟩, exDb) :=
  owner_only_update_delete exUsers exDb "tokB" exOid ⟨some "X", none⟩
    ⟨"bob@x.com", "tokB"⟩ exOid exNote (by decide) (by decide) (by decide)
    (by decide)

/-- C3: with a token matching no stored user, every one of the five
operations fails with 401 "Invalid or expired token" and leaves the note
collection unchanged. -/
theorem invalid_token_unauthorized (users : List UserRecord)
    (db : List NoteDoc) (token : String) (p : NoteModel) (now : DateTime)
    (freshId note_id : String) (upd : NoteUpdateModel)
    (h : find_user users token = none) :
    create_note users db token p now freshId =
      (.error ⟨401, "Invalid or expired token"⟩, db) ∧
    get_all_notes users db token =
      (.error ⟨401, "Invalid or expired token"⟩, db) ∧
    get_my_notes users db token =
      (.error ⟨401, "Invalid or expired token"⟩, db) ∧
    update_note users db token note_id upd =
      (.error ⟨401, "Invalid or expired token"⟩, db) ∧
    delete_note users db token note_id =
      (.error ⟨401, "Invalid or expired token"⟩, db) := by
  refine ⟨?_, ?_, ?_, ?_, ?_⟩ <;>
    simp [create_note, get_all_notes, get_my_notes, update_note,
      delete_note, h]

/-- Witness for C3: an unknown token is rejected by all five operations. -/
theorem invalid_token_unauthorized_witness :
    create_note exUsers exDb "bad" ⟨none, "P", "e", "d", "N"⟩ exNow exOid =
      (.error ⟨401, "Invalid or expired token"⟩, exDb) ∧
    get_all_notes exUsers exDb "bad" =
      (.error ⟨401, "Invalid or expired token"⟩, exDb) ∧
    get_my_notes exUsers exDb "bad" =
      (.error ⟨401, "Invalid or expired token"⟩, exDb) ∧
    update_note exUsers exDb "bad" exOid ⟨some "X", none⟩ =
      (.error ⟨401, "Invalid or expired token"⟩, exDb) ∧
    delete_note exUsers exDb "bad" exOid =
      (.error ⟨401, "Invalid or expired token"⟩, exDb) :=
  invalid_token_unauthorized exUsers exDb "bad" ⟨none, "P", "e", "d", "N"⟩
    exNow exOid exOid ⟨some "X", none⟩ (by decide)

/-- C9: in update and delete the token lookup runs before the id parse,
so an unknown token together with a malformed `note_id` yields 401, not
400. -/
theorem auth_checked_before_id_parse (users : List UserRecord)
    (db : List NoteDoc) (token note_id : String) (upd : NoteUpdateModel)
    (hu : find_user users token = none)
    (hp : parseObjectId note_id = none) :
    update_note users db token note_id upd =
      (.error ⟨401, "Invalid or expired token"⟩, db) ∧
    delete_note users db token note_id =
      (.error ⟨401, "Invalid or expired token"⟩, db) := by
  constructor <;> simp [update_note, delete_note, hu]

/-- Witness for C9: unknown token plus malformed id gives 401. -/
theorem auth_checked_before_id_parse_witness :
    update_note exUsers exDb "bad" "not-an-oid" ⟨some "X", none⟩ =
      (.error ⟨401, "Invalid or expired token"⟩, exDb) ∧
    delete_note exUsers exDb "bad" "not-an-oid" =
      (.error ⟨401, "Invalid or expired token"⟩, exDb) :=
  auth_checked_before_id_parse exUsers exDb "bad" "not-an-oid"
    ⟨some "X", none⟩ (by decide) (by decide)

/-- A second stored note, owned by bob. -/
def exNoteB : NoteDoc :=
  ⟨"bbbbbbbbbbbbbbbbbbbbbbbb", "Other", "bob@x.com",
    "2026-02-03 09:00:00", "todo"⟩

/-- A two-note collection with one note per user. -/
def exDb2 : List NoteDoc := [exNote, exNoteB]

/-- C5: under a valid token, update and delete check errors in the order
id-parse (400), lookup (404), ownership (403), and — update only — empty
field set (400), each returning with the collection unchanged. -/
theorem update_delete_error_precedence (users : List UserRecord)
    (db : List NoteDoc) (token note_id : String) (upd : NoteUpdateModel)
    (u : UserRecord) (object_id : String) (n : NoteDoc)
    (hu : find_user users token = some u) :
    (parseObjectId note_id = none →
      update_note users db token note_id upd =
        (.error ⟨400, "Invalid note ID format"⟩, db) ∧
      delete_note users db token note_id =
        (.error ⟨400, "Invalid note ID format"⟩, db)) ∧
    (parseObjectId note_id = some object_id →
      find_note db object_id = none →
      update_note users db token note_id upd =
        (.error ⟨404, "Note not found"⟩, db) ∧
      delete_note users db token note_id =
        (.error ⟨404, "Note not found"⟩, db)) ∧
    (parseObjectId note_id = some object_id →
      find_note db object_id = some n →
      n.created_by_user_email ≠ u.email →
      update_note users db token note_id upd =
        (.error ⟨403, "You can only update your own notes"⟩, db) ∧
      delete_note users db token note_id =
        (.error ⟨403, "You can only delete your own notes"⟩, db)) ∧
    (parseObjectId note_id = some object_id →
      find_note db object_id = some n →
      n.created_by_user_email = u.email →
      upd.project_name = none → upd.notes = none →
      update_note users db token note_id upd =
        (.error ⟨400, "No fields to update"⟩, db)) := by
  refine ⟨fun hp => ?_, fun hp hn => ?_, fun hp hn hne => ?_,
    fun hp hn howner hp1 hp2 => ?_⟩ <;>
    simp [update_note, delete_note, hu, hp, *]

/-- Witness for C5, exercising the deepest branch: alice updating her own
note with an all-absent payload gets 400 "No fields to update". -/
theorem update_delete_error_precedence_witness :
    update_note exUsers exDb "tokA" exOid ⟨none, none⟩ =
      (.error ⟨400, "No fields to update"⟩, exDb) :=
  (update_delete_error_precedence exUsers exDb "tokA" exOid ⟨none, none⟩
    ⟨"alice@x.com", "tokA"⟩ exOid exNote (by decide)).2.2.2
    (by decide) (by decide) rfl rfl rfl

/-- C6: under a valid token, list-all returns every stored note
unfiltered and list-mine returns exactly the notes whose
`created_by_user_email` equals the caller's email; in both envelopes
`count` is the length of `data`. -/
theorem list_all_and_mine_scope (users : List UserRecord)
    (db : List NoteDoc) (token : String) (u : UserRecord)
    (hu : find_user users token = some u) :
    get_all_notes users db token =
      (.ok ⟨true, "All notes retrieved successfully",
        (db.map noteOut).length, db.map noteOut⟩, db) ∧
    get_my_notes users db token =
      (.ok ⟨true, "Your notes retrieved successfully",
        ((db.filter (fun n =>
          n.created_by_user_email == u.email)).map noteOut).length,
        (db.filter (fun n =>
          n.created_by_user_email == u.email)).map noteOut⟩, db) := by
  constructor <;> simp [get_all_notes, get_my_notes, hu]

/-- Witness for C6: with alice's and bob's notes stored, alice's list-all
sees both and her list-mine sees exactly her own. -/
theorem list_all_and_mine_scope_witness :
    get_all_notes exUsers exDb2 "tokA" =
      (.ok ⟨true, "All notes retrieved successfully",
        (exDb2.map noteOut).length, exDb2.map noteOut⟩, exDb2) ∧
    get_my_notes exUsers exDb2 "tokA" =
      (.ok ⟨true, "Your notes retrieved successfully",
        ((exDb2.filter (fun n =>
          n.created_by_user_email == "alice@x.com")).map noteOut).length,
        (exDb2.filter (fun n =>
          n.created_by_user_email == "alice@x.com")).map noteOut⟩,
       exDb2) :=
  list_all_and_mine_scope exUsers exDb2 "tokA" ⟨"alice@x.com", "tokA"⟩
    (by decide)

/-- C7: every successful delete responds with `success = true`, the
static message, and a `data` object whose identifier is exactly the
client-supplied `note_id` string (not re-read from storage) and whose
`deleted` flag is `true`. -/
theorem delete_echoes_client_id (users : List UserRecord)
    (db : List NoteDoc) (token note_id : String) (resp : DeleteResponse)
    (db2 : List NoteDoc)
    (h : delete_note users db token note_id = (.ok resp, db2)) :
    resp = ⟨true, "Note deleted successfully", ⟨note_id, true⟩⟩ := by
  unfold delete_note at h
  split at h
  · simp at h
  · split at h
    · simp at h
    · split at h
      · simp at h
      · split at h
        · simp at h
        · simp only [Prod.mk.injEq, Except.ok.injEq] at h
          exact h.1.symm

/-- Witness for C7: alice deletes her note addressed by an uppercase id
literal; the echoed id is that uppercase original, not the stored
lowercase form. -/
theorem delete_echoes_client_id_witness :
    (⟨true, "Note deleted successfully",
      ⟨"AAAAAAAAAAAAAAAAAAAAAAAA", true⟩⟩ : DeleteResponse) =
    ⟨true, "Note deleted successfully",
      ⟨"AAAAAAAAAAAAAAAAAAAAAAAA", true⟩⟩ :=
  delete_echoes_client_id exUsers exDb "tokA" "AAAAAAAAAAAAAAAAAAAAAAAA"
    ⟨true, "Note deleted successfully", ⟨"AAAAAAAAAAAAAAAAAAAAAAAA", true⟩⟩
    (exDb.eraseP (fun n => n.oid == exOid)) rfl

/-- C2: a successful update changes at most `project_name` and `notes`:
for every stored note the identifier, `created_by_user_email` and
`created_date` are identical before and after, and a field absent from
the payload keeps its prior value across the whole collection. -/
theorem update_frame (users : List UserRecord) (db : List NoteDoc)
    (token note_id : String) (upd : NoteUpdateModel)
    (resp : NoteResponse) (db2 : List NoteDoc)
    (h : update_note users db token note_id upd = (.ok resp, db2)) :
    db2.map (fun m => (m.oid, m.created_by_user_email, m.created_date)) =
      db.map (fun m => (m.oid, m.created_by_user_email, m.created_date)) ∧
    (upd.project_name = none →
      db2.map (fun m => m.project_name) =
        db.map (fun m => m.project_name)) ∧
    (upd.notes = none →
      db2.map (fun m => m.notes) = db.map (fun m => m.notes)) := by
  unfold update_note at h
  cases hfu : find_user users token with
  | none => simp [hfu] at h
  | some user =>
    cases hparse : parseObjectId note_id with
    | none => simp [hfu, hparse] at h
    | some object_id =>
      cases hfind : find_note db object_id with
      | none => simp [hfu, hparse, hfind] at h
      | some note =>
        by_cases hne : note.created_by_user_email ≠ user.email
        · simp [hfu, hparse, hfind, if_pos hne] at h
        · by_cases hempty : upd.project_name = none ∧ upd.notes = none
          · simp [hfu, hparse, hfind, if_neg hne, if_pos hempty] at h
          · simp only [hfu, hparse, hfind, if_neg hne, if_neg hempty,
              find_note_update_one, Option.map_some', Prod.mk.injEq,
              Except.ok.injEq] at h
            obtain ⟨-, hdb2⟩ := h
            subst hdb2
            refine ⟨?_, fun hpn => ?_, fun hns => ?_⟩
            · exact update_one_map_frame
                (fun m => (m.oid, m.created_by_user_email, m.created_date))
                upd (fun n => rfl) db object_id
            · exact update_one_map_frame _ upd
                (fun n => by simp [applySet, hpn]) db _
            · exact update_one_map_frame _ upd
                (fun n => by simp [applySet, hns]) db _

/-- Witness for C2: alice updates only `notes`; identifier, owner email,
creation date and `project_name` are unchanged across the collection. -/
theorem update_frame_witness :
    (update_one exDb exOid ⟨none, some "final"⟩).map
        (fun m => (m.oid, m.created_by_user_email, m.created_date)) =
      exDb.map
        (fun m => (m.oid, m.created_by_user_email, m.created_date)) ∧
    (update_one exDb exOid ⟨none, some "final"⟩).map
        (fun m => m.project_name) =
      exDb.map (fun m => m.project_name) :=
  have h := update_frame exUsers exDb "tokA" exOid ⟨none, some "final"⟩
    ⟨true, "Note updated successfully",
      noteOut (applySet ⟨none, some "final"⟩ exNote)⟩
    (update_one exDb exOid ⟨none, some "final"⟩) rfl
  ⟨h.1, h.2.1 rfl⟩

/-- C10: an explicitly supplied empty string is a field to change, not an
absent field: an owner's update with only `notes = ""` (resp. only
`project_name = ""`) succeeds and sets that field to `""`. -/
theorem empty_string_field_updates (users : List UserRecord)
    (db : List NoteDoc) (token note_id : String) (u : UserRecord)
    (object_id : String) (n : NoteDoc)
    (hu : find_user users token = some u)
    (hp : parseObjectId note_id = some object_id)
    (hn : find_note db object_id = some n)
    (hown : n.created_by_user_email = u.email) :
    update_note users db token note_id ⟨none, some ""⟩ =
      (.ok ⟨true, "Note updated successfully",
        ⟨n.oid, n.project_name, n.created_by_user_email,
          n.created_date, ""⟩⟩,
       update_one db object_id ⟨none, some ""⟩) ∧
    update_note users db token note_id ⟨some "", none⟩ =
      (.ok ⟨true, "Note updated successfully",
        ⟨n.oid, "", n.created_by_user_email, n.created_date,
          n.notes⟩⟩,
       update_one db object_id ⟨some "", none⟩) := by
  constructor <;>
    simp [update_note, hu, hp, hn, hown, find_note_update_one,
      applySet, noteOut]

/-- Witness for C10: alice blanks the body, then the project name, of her
own note. -/
theorem empty_string_field_updates_witness :
    update_note exUsers exDb "tokA" exOid ⟨none, some ""⟩ =
      (.ok ⟨true, "Note updated successfully",
        ⟨exNote.oid, exNote.project_name, exNote.created_by_user_email,
          exNote.created_date, ""⟩⟩,
       update_one exDb exOid ⟨none, some ""⟩) ∧
    update_note exUsers exDb "tokA" exOid ⟨some "", none⟩ =
      (.ok ⟨true, "Note updated successfully",
        ⟨exNote.oid, "", exNote.created_by_user_email,
          exNote.created_date, exNote.notes⟩⟩,
       update_one exDb exOid ⟨some "", none⟩) :=
  empty_string_field_updates exUsers exDb "tokA" exOid
    ⟨"alice@x.com", "tokA"⟩ exOid exNote (by decide) (by decide)
    (by decide) rfl

/-- C8: a note created under `u`'s token lands in the collection and is
then returned by list-mine under the same token, carrying `u`'s email,
the submitted `project_name` and `notes`, and a non-empty id. -/
theorem create_then_list_mine (users : List UserRecord)
    (db : List NoteDoc) (u : UserRecord) (p : NoteModel) (now : DateTime)
    (freshId : String) (resp : NoteResponse) (db2 : List NoteDoc)
    (hu : find_user users u.token = some u)
    (hfid : isValidObjectId freshId = true)
    (hc : create_note users db u.token p now freshId = (.ok resp, db2)) :
    get_my_notes users db2 u.token =
      (.ok ⟨true, "Your notes retrieved successfully",
        ((db2.filter (fun n =>
          n.created_by_user_email == u.email)).map noteOut).length,
        (db2.filter (fun n =>
          n.created_by_user_email == u.email)).map noteOut⟩, db2) ∧
    (⟨freshId, p.project_name, u.email, strftime_ymd_hms now,
        p.notes⟩ : NoteOut) ∈
      (db2.filter (fun n =>
        n.created_by_user_email == u.email)).map noteOut ∧
    freshId ≠ "" := by
  unfold create_note at hc
  rw [hu] at hc
  simp only [Prod.mk.injEq, Except.ok.injEq] at hc
  obtain ⟨-, hdb2⟩ := hc
  subst hdb2
  refine ⟨?_, ?_, ?_⟩
  · simp [get_my_notes, hu]
  · have hmem : (⟨freshId, p.project_name, u.email, strftime_ymd_hms now,
        p.notes⟩ : NoteDoc) ∈
        (db ++ ([⟨freshId, p.project_name, u.email, strftime_ymd_hms now,
          p.notes⟩] : List NoteDoc)).filter
          (fun n => n.created_by_user_email == u.email) := by
      rw [List.mem_filter]
      exact ⟨List.mem_append_right db (List.mem_singleton.mpr rfl),
        by simp⟩
    exact List.mem_map_of_mem noteOut hmem
  · intro he
    rw [he] at hfid
    exact absurd hfid (by decide)

/-- The note alice's create inserts in the round-trip witness. -/
def exCreatedDoc : NoteDoc :=
  ⟨exOid, "P", "alice@x.com", strftime_ymd_hms exNow, "N"⟩

/-- Witness for C8: alice creates a note on an empty collection and sees
it in her list-mine. -/
theorem create_then_list_mine_witness :
    get_my_notes exUsers [exCreatedDoc] "tokA" =
      (.ok ⟨true, "Your notes retrieved successfully",
        (([exCreatedDoc].filter (fun n =>
          n.created_by_user_email == "alice@x.com")).map noteOut).length,
        ([exCreatedDoc].filter (fun n =>
          n.created_by_user_email == "alice@x.com")).map noteOut⟩,
       [exCreatedDoc]) ∧
    (⟨exOid, "P", "alice@x.com", strftime_ymd_hms exNow,
        "N"⟩ : NoteOut) ∈
      ([exCreatedDoc].filter (fun n =>
        n.created_by_user_email == "alice@x.com")).map noteOut ∧
    exOid ≠ "" :=
  create_then_list_mine exUsers [] ⟨"alice@x.com", "tokA"⟩
    ⟨none, "P", "ignored@e", "1999-01-01 00:00:00", "N"⟩ exNow exOid
    ⟨true, "Note created successfully",
      ⟨exOid, "P", "alice@x.com", strftime_ymd_hms exNow, "N"⟩⟩
    [exCreatedDoc] (by decide) (by decide) rfl

/-- C4 counterexample: a create payload supplying exactly `project_name`
and `notes` — the fields the claim calls the required input — is rejected
by the `NoteModel` schema, because `created_by_user_email` and
`created_date` are declared required (non-`Optional`) there; so the
required input is not exactly `project_name` and `notes`. -/
theorem create_required_fields_cex :
    NoteModel.validate ⟨none, some "P", none, none, some "N"⟩ = none :=
  rfl

/-- C4 (amended): the create payload schema requires all four of
`project_name`, `created_by_user_email`, `created_date` and `notes`; the
values of client-supplied `created_by_user_email` and `created_date` are
nevertheless ignored, and the stored and returned note carries the
authenticated user's email and the server time formatted
`YYYY-MM-DD HH:MM:SS`. -/
theorem create_ignores_client_email_and_date (users : List UserRecord)
    (db : List NoteDoc) (token : String) (now : DateTime)
    (freshId : String) (i : Option String) (pn em em2 cd cd2 ns : String)
    (u : UserRecord) (raw : RawNotePayload) (m : NoteModel)
    (hu : find_user users token = some u)
    (hv : NoteModel.validate raw = some m) :
    create_note users db token ⟨i, pn, em, cd, ns⟩ now freshId =
      create_note users db token ⟨i, pn, em2, cd2, ns⟩ now freshId ∧
    create_note users db token ⟨i, pn, em, cd, ns⟩ now freshId =
      (.ok ⟨true, "Note created successfully",
        ⟨freshId, pn, u.email, strftime_ymd_hms now, ns⟩⟩,
       db ++ [⟨freshId, pn, u.email, strftime_ymd_hms now, ns⟩]) ∧
    (raw.project_name.isSome ∧ raw.created_by_user_email.isSome ∧
      raw.created_date.isSome ∧ raw.notes.isSome) := by
  refine ⟨rfl, by simp [create_note, hu, noteOut], ?_⟩
  rcases raw with ⟨ri, rp, re, rc, rn⟩
  cases rp <;> cases re <;> cases rc <;> cases rn <;>
    simp [NoteModel.validate] at hv ⊢

/-- Witness for C4 (amended): alice's create ignores the bogus email and
date in the payload. -/
theorem create_ignores_client_email_and_date_witness :
    create_note exUsers [] "tokA"
        ⟨none, "P", "ignored@e", "1999-01-01 00:00:00", "N"⟩ exNow exOid =
      create_note exUsers [] "tokA" ⟨none, "P", "other@e", "2000", "N"⟩
        exNow exOid ∧
    create_note exUsers [] "tokA"
        ⟨none, "P", "ignored@e", "1999-01-01 00:00:00", "N"⟩ exNow exOid =
      (.ok ⟨true, "Note created successfully",
        ⟨exOid, "P", "alice@x.com", strftime_ymd_hms exNow, "N"⟩⟩,
       [] ++ [⟨exOid, "P", "alice@x.com", strftime_ymd_hms exNow, "N"⟩]) ∧
    ((some "P" : Option String).isSome ∧
      (some "ignored@e" : Option String).isSome ∧
      (some "1999-01-01 00:00:00" : Option String).isSome ∧
      (some "N" : Option String).isSome) :=
  create_ignores_client_email_and_date exUsers [] "tokA" exNow exOid
    none "P" "ignored@e" "other@e" "1999-01-01 00:00:00" "2000" "N"
    ⟨"alice@x.com", "tokA"⟩
    ⟨none, some "P", some "ignored@e", some "1999-01-01 00:00:00",
      some "N"⟩
    ⟨none, "P", "ignored@e", "1999-01-01 00:00:00", "N"⟩
    (by decide) rfl
